import Mathlib

/-!
# Verification of the EduVision subject-tracking and engagement core

Shallow embedding of the engagement-tracking logic of
`src/pages/Index.tsx` (the `Index` component with its
`handleStudentsDetected` handler) and the co-located `EmotionDetector`
component (its `detectStudents` tick function).

Numeric values produced by JavaScript arithmetic are modelled as exact
rationals (`ℚ`); timestamps (`Date.now()`) as naturals (`ℕ`).  Each call
to `Math.random()` in the source is modelled as an explicit rational
input; the contract of `Math.random` (a value in `[0,1)`) appears as a
hypothesis where a property depends on it.  The wall clock is modelled
as an explicit non-decreasing function where a property depends on its
monotonicity.
-/

/-- Bounding box as produced by the detector: `{ x, y, width, height }`. -/
structure BoundingBox where
  x : ℚ
  y : ℚ
  width : ℚ
  height : ℚ
deriving DecidableEq, Repr

/-- One entry of the session event log (`EmotionData` in the source):
`{ emotion, confidence, engagement, timestamp, boundingBox }`. -/
structure EmotionData where
  emotion : String
  confidence : ℚ
  engagement : String
  timestamp : ℕ
  boundingBox : BoundingBox
deriving DecidableEq, Repr

/-- One subject record (`StudentData` in the source):
`{ id, name, currentEmotion, engagement, confidence, boundingBox, lastSeen, history }`. -/
structure StudentData where
  id : String
  name : String
  currentEmotion : String
  engagement : String
  confidence : ℚ
  boundingBox : BoundingBox
  lastSeen : ℕ
  history : List EmotionData
deriving DecidableEq, Repr

/-- The fixed emotion enumeration, exactly the array
`['happy', 'neutral', 'sad', 'angry', 'surprised', 'fearful', 'disgust']`
in `detectStudents`. -/
def emotions : List String :=
  ["happy", "neutral", "sad", "angry", "surprised", "fearful", "disgust"]

/-- The weight array `[0.4, 0.3, 0.1, 0.05, 0.05, 0.05, 0.05]` of
`detectStudents`. -/
def weights : List ℚ := [0.4, 0.3, 0.1, 0.05, 0.05, 0.05, 0.05]

/-- The weighted-selection loop of `detectStudents`: walk the
(label, weight) buckets; if the remaining draw is below the current
weight pick that label and stop, otherwise subtract the weight and move
on.  When the buckets are exhausted the initial value `'neutral'` of the
`emotion` variable is kept. -/
def selectEmotionAux : ℚ → List (String × ℚ) → String
  | _, [] => "neutral"
  | r, (e, w) :: rest => if r < w then e else selectEmotionAux (r - w) rest

/-- The emotion chosen by `detectStudents` for one random draw `r`
(the value of `Math.random()` feeding the loop). -/
def selectEmotion (r : ℚ) : String :=
  selectEmotionAux r (emotions.zip weights)

/-- The fixed engagement enumeration.  The source compares against the
string `'Attentive'` (`engagement === 'Attentive'`); the other category
is rendered as the non-attentive branch. -/
def engagementCategories : List String := ["Attentive", "Distracted"]

/-- Modelled from the spec: the module `@/types/emotion`, which defines
`emotionToEngagement`, is not under `src/`.  Per spec §3/§4.1 the
classifier is a pure, total, deterministic static lookup from the fixed
emotion enumeration to the fixed engagement enumeration; the exact table
is a policy choice (spec §9, open question).  We fix a representative
total table sending the labels the source treats as engaged to
`"Attentive"` and every other label to `"Distracted"`. -/
def emotionToEngagement (label : String) : String :=
  if label = "happy" ∨ label = "neutral" ∨ label = "surprised" then "Attentive"
  else "Distracted"

/-- The six `Math.random()` draws consumed for one simulated student in
one iteration of the `detectStudents` loop, in source order: box width,
box height, x, y, the emotion draw, and the confidence draw. -/
structure Draws where
  rBoxW : ℚ
  rBoxH : ℚ
  rX : ℚ
  rY : ℚ
  rEmotion : ℚ
  rConf : ℚ
deriving DecidableEq, Repr

/-- `Math.floor(Math.random() * 3) + 1` — the number of simulated
students this tick, from the draw `r`. -/
def numStudents (r : ℚ) : ℕ := (⌊r * 3⌋).toNat + 1

/-- The body of the `for` loop of `detectStudents` at index `i`: the
record pushed onto the `students` array.  `w`/`h` are the overlay canvas
dimensions, `now` the value of `Date.now()` at the push. -/
def mkStudent (i : ℕ) (d : Draws) (w h : ℚ) (now : ℕ) : StudentData :=
  let boxWidth := 150 + d.rBoxW * 100
  let boxHeight := 180 + d.rBoxH * 120
  let x := d.rX * (w - boxWidth)
  let y := d.rY * (h - boxHeight)
  let emotion := selectEmotion d.rEmotion
  let confidence := 0.7 + d.rConf * 0.3
  let engagement := emotionToEngagement emotion
  { id := "student-" ++ toString (i + 1)
    name := "Student " ++ toString (i + 1)
    currentEmotion := emotion
    engagement := engagement
    confidence := confidence
    boundingBox := { x := x, y := y, width := boxWidth, height := boxHeight }
    lastSeen := now
    history := [] }

/-- The `detectStudents` tick function of `EmotionDetector`: one record
per loop index `0 ≤ i < n`, where `n` is the simulated student count and
`draws i` are the random draws of iteration `i`. -/
def detectStudents (n : ℕ) (draws : ℕ → Draws) (w h : ℚ) (now : ℕ) :
    List StudentData :=
  (List.range n).map (fun i => mkStudent i (draws i) w h now)

/-- The `Index` component state: the `students` and `emotionHistory`
`useState` cells. -/
structure AppState where
  students : List StudentData
  emotionHistory : List EmotionData
deriving DecidableEq, Repr

/-- The initial component state: `useState<EmotionData[]>([])` and
`useState<StudentData[]>([])`. -/
def initialState : AppState := { students := [], emotionHistory := [] }

/-- The `EmotionData` record built inside `handleStudentsDetected` for
one detected student, with `t` the value of `Date.now()` at that
iteration. -/
def sampleOf (st : StudentData) (t : ℕ) : EmotionData :=
  { emotion := st.currentEmotion
    confidence := st.confidence
    engagement := st.engagement
    timestamp := t
    boundingBox := st.boundingBox }

/-- The successive `setEmotionHistory(prev => [...prev, emotionData])`
appends performed by the `forEach` in `handleStudentsDetected`; `clock k`
is the value of `Date.now()` at the `k`-th iteration. -/
def appendSamples (log : List EmotionData) (d : List StudentData)
    (clock : ℕ → ℕ) (k : ℕ) : List EmotionData :=
  match d with
  | [] => log
  | st :: rest => appendSamples (log ++ [sampleOf st (clock k)]) rest clock (k + 1)

/-- The block of samples the `forEach` of `handleStudentsDetected`
contributes for the batch `d`, starting at iteration `k`: one
`sampleOf` entry per detected student, in batch order. -/
def samplesFrom (d : List StudentData) (clock : ℕ → ℕ) (k : ℕ) :
    List EmotionData :=
  match d with
  | [] => []
  | st :: rest => sampleOf st (clock k) :: samplesFrom rest clock (k + 1)

/-- `handleStudentsDetected`: replace the `students` state with the new
batch and append one `EmotionData` per detected student to
`emotionHistory`. -/
def handleStudentsDetected (s : AppState) (d : List StudentData)
    (clock : ℕ → ℕ) : AppState :=
  { students := d, emotionHistory := appendSamples s.emotionHistory d clock 0 }

/-- The random draws and clocks consumed during one firing of the
2000 ms `setInterval` tick. -/
structure TickInput where
  rNum : ℚ
  draws : ℕ → Draws
  canvasW : ℚ
  canvasH : ℚ
  detectTime : ℕ
  logClock : ℕ → ℕ

/-- One tick: `detectStudents` runs and hands its batch to
`handleStudentsDetected` via the `onStudentsDetected` callback. -/
def stepTick (s : AppState) (t : TickInput) : AppState :=
  handleStudentsDetected s
    (detectStudents (numStudents t.rNum) t.draws t.canvasW t.canvasH t.detectTime)
    t.logClock

/-- A whole session: fold the ticks over the initial component state. -/
def runTicks (ts : List TickInput) : AppState :=
  ts.foldl stepTick initialState

/-- Trend indicator of the aggregate metrics (spec §4.3). -/
inductive Trend where
  | improving
  | stable
  | declining
  | insufficientData
deriving DecidableEq, Repr

/-- Modelled from the spec: the Aggregation Engine (the
`EngagementMetrics` component) is not under `src/`.  Spec §3:
counts/percentages per engagement category, mean confidence, and a trend
indicator over a sliding window of the event log. -/
structure AggregateMetrics where
  attentiveCount : ℕ
  distractedCount : ℕ
  attentivePct : ℚ
  distractedPct : ℚ
  meanConfidence : ℚ
  trend : Trend
deriving DecidableEq, Repr

/-- Percentage of samples classified `"Attentive"` in a list, `0` on an
empty list. -/
def attentiveShare (l : List EmotionData) : ℚ :=
  if l.length = 0 then 0
  else ((l.filter (fun s => s.engagement = "Attentive")).length * 100 : ℚ) / l.length

/-- Modelled from the spec: the Aggregation Engine computation
(spec §4.3, §7).  Take the trailing window of at most `wnd` samples of
the log; count samples per category; express percentages over the window
(zero on an empty window rather than failing); mean confidence over the
window (zero on an empty window); trend from comparing the attentive
share of the earlier and later halves of the window against `margin`,
reported as `insufficientData` below `minSamples` samples. -/
def computeAggregate (log : List EmotionData) (wnd minSamples : ℕ)
    (margin : ℚ) : AggregateMetrics :=
  let win := log.drop (log.length - wnd)
  let att := (win.filter (fun s => s.engagement = "Attentive")).length
  let dis := (win.filter (fun s => s.engagement = "Distracted")).length
  let total := win.length
  let attPct : ℚ := if total = 0 then 0 else (att * 100 : ℚ) / total
  let disPct : ℚ := if total = 0 then 0 else (dis * 100 : ℚ) / total
  let mean : ℚ := if total = 0 then 0 else (win.map (fun s => s.confidence)).sum / total
  let trend :=
    if total < minSamples then Trend.insufficientData
    else
      let earlier := win.take (total / 2)
      let later := win.drop (total / 2)
      if attentiveShare later < attentiveShare earlier - margin then Trend.declining
      else if attentiveShare earlier + margin < attentiveShare later then Trend.improving
      else Trend.stable
  { attentiveCount := att
    distractedCount := dis
    attentivePct := attPct
    distractedPct := disPct
    meanConfidence := mean
    trend := trend }

/-- The findings the Insight Generator can emit (spec §4.4). -/
inductive Finding where
  | distractedWarning
  | decliningTrend
  | noData
deriving DecidableEq, Repr

/-- Modelled from the spec: the Insight Generator (the `InsightsPanel`
component) is not under `src/`.  Spec §4.4: ordered rule evaluation over
the aggregate metrics plus the subject count; each independent rule may
fire; thresholds are configuration. -/
def generateInsights (m : AggregateMetrics) (subjectCount : ℕ)
    (distractedThreshold : ℚ) : List Finding :=
  (if distractedThreshold < m.distractedPct then [Finding.distractedWarning] else []) ++
  (if m.trend = Trend.declining then [Finding.decliningTrend] else []) ++
  (if subjectCount = 0 then [Finding.noData] else [])

/-- Concrete all-zero random draws used by the counterexample runs: each
`Math.random()` call returns `0`, a legal value of its `[0,1)` range. -/
def cxDraws : ℕ → Draws :=
  fun _ => { rBoxW := 0, rBoxH := 0, rX := 0, rY := 0, rEmotion := 0, rConf := 0 }

/-- A concrete tick at wall time 1000 ms on a 640×480 canvas: the
student-count draw `0` yields one student. -/
def cxTick1 : TickInput :=
  { rNum := 0, draws := cxDraws, canvasW := 640, canvasH := 480
    detectTime := 1000, logClock := fun _ => 1000 }

/-- The same draws one interval (2000 ms) later: the single simulated
student reappears at the identical bounding box. -/
def cxTick2 : TickInput :=
  { rNum := 0, draws := cxDraws, canvasW := 640, canvasH := 480
    detectTime := 3000, logClock := fun _ => 3000 }

/-- A concrete tick at wall time 1000 ms whose student-count draw `0.5`
yields two students. -/
def cxTickTwo : TickInput :=
  { rNum := 0.5, draws := cxDraws, canvasW := 640, canvasH := 480
    detectTime := 1000, logClock := fun _ => 1000 }

/-! ## Basic lemmas about the embedded operations -/

/-- The `id` pushed for loop index `i` depends only on `i`. -/
theorem mkStudent_id (i : ℕ) (d : Draws) (w h : ℚ) (now : ℕ) :
    (mkStudent i d w h now).id = "student-" ++ toString (i + 1) := rfl

/-- Every record pushed by the loop starts with an empty history. -/
theorem mkStudent_history (i : ℕ) (d : Draws) (w h : ℚ) (now : ℕ) :
    (mkStudent i d w h now).history = [] := rfl

/-- The confidence pushed for one student is `0.7 + r * 0.3` for its
confidence draw `r`. -/
theorem mkStudent_confidence (i : ℕ) (d : Draws) (w h : ℚ) (now : ℕ) :
    (mkStudent i d w h now).confidence = 0.7 + d.rConf * 0.3 := rfl

/-- Membership in a `detectStudents` batch. -/
theorem mem_detectStudents {st : StudentData} {n : ℕ} {draws : ℕ → Draws}
    {w h : ℚ} {now : ℕ} :
    st ∈ detectStudents n draws w h now ↔
      ∃ i, i < n ∧ st = mkStudent i (draws i) w h now := by
  simp only [detectStudents, List.mem_map, List.mem_range]
  constructor
  · rintro ⟨i, hi, rfl⟩
    exact ⟨i, hi, rfl⟩
  · rintro ⟨i, hi, rfl⟩
    exact ⟨i, hi, rfl⟩

/-- The ids of a `detectStudents` batch are determined by the loop
indices alone. -/
theorem ids_detectStudents (n : ℕ) (draws : ℕ → Draws) (w h : ℚ) (now : ℕ) :
    (detectStudents n draws w h now).map StudentData.id =
      (List.range n).map (fun i => "student-" ++ toString (i + 1)) := by
  simp [detectStudents, List.map_map, Function.comp, mkStudent_id]

/-- Unfolding the successive appends of the `forEach` into a single
append of the sample block. -/
theorem appendSamples_eq_append (d : List StudentData) (log : List EmotionData)
    (clock : ℕ → ℕ) (k : ℕ) :
    appendSamples log d clock k = log ++ samplesFrom d clock k := by
  induction d generalizing log k with
  | nil => simp [appendSamples, samplesFrom]
  | cons st rest ih =>
      simp [appendSamples, samplesFrom, ih, List.append_assoc]

/-- One sample is appended per detected student. -/
theorem samplesFrom_length (d : List StudentData) (clock : ℕ → ℕ) (k : ℕ) :
    (samplesFrom d clock k).length = d.length := by
  induction d generalizing k with
  | nil => rfl
  | cons st rest ih => simp [samplesFrom, ih]

/-- With a non-decreasing clock, every sample of the block starting at
iteration `k` carries a timestamp at least `clock k`. -/
theorem timestamp_ge_of_mem_samplesFrom {clock : ℕ → ℕ}
    (hmono : ∀ i j, i ≤ j → clock i ≤ clock j) :
    ∀ (d : List StudentData) (k : ℕ) (e : EmotionData),
      e ∈ samplesFrom d clock k → clock k ≤ e.timestamp := by
  intro d
  induction d with
  | nil => intro k e he; simp [samplesFrom] at he
  | cons st rest ih =>
      intro k e he
      rcases (List.mem_cons).mp he with rfl | he
      · exact le_of_eq rfl
      · exact le_trans (hmono k (k + 1) (Nat.le_succ k)) (ih (k + 1) e he)

/-- With a non-decreasing clock, the timestamps of an appended sample
block are non-decreasing in append order. -/
theorem pairwise_samplesFrom {clock : ℕ → ℕ}
    (hmono : ∀ i j, i ≤ j → clock i ≤ clock j) :
    ∀ (d : List StudentData) (k : ℕ),
      List.Pairwise (fun a b => a.timestamp ≤ b.timestamp) (samplesFrom d clock k) := by
  intro d
  induction d with
  | nil => intro k; simp [samplesFrom]
  | cons st rest ih =>
      intro k
      refine List.Pairwise.cons ?_ (ih (k + 1))
      intro e he
      exact le_trans (hmono k (k + 1) (Nat.le_succ k))
        (timestamp_ge_of_mem_samplesFrom hmono rest (k + 1) e he)

/-- The store after any run is either the initial empty store or exactly
the batch produced by the last tick that fired. -/
theorem foldl_students_cases (ts : List TickInput) :
    ∀ s : AppState,
      (ts.foldl stepTick s).students = s.students ∨
      ∃ t : TickInput, t ∈ ts ∧ (ts.foldl stepTick s).students =
        detectStudents (numStudents t.rNum) t.draws t.canvasW t.canvasH t.detectTime := by
  induction ts with
  | nil => intro s; exact Or.inl rfl
  | cons t ts ih =>
      intro s
      rcases ih (stepTick s t) with h | ⟨u, hu, h⟩
      · refine Or.inr ⟨t, List.mem_cons_self t ts, ?_⟩
        rw [List.foldl_cons, h]
        rfl
      · exact Or.inr ⟨u, List.mem_cons_of_mem t hu, by rw [List.foldl_cons, h]⟩

/-! ## Claim C1 -/

/-- Claim C1, counterexample: over the two concrete ticks `cxTick1` and
`cxTick2` the single simulated subject keeps id `"student-1"` and its
bounding box moves by a distance of `0` — below any positive
match-distance threshold — yet its history length after the second tick
is `0`, not the first tick's length plus one (the record is recreated
with an empty history each tick). -/
theorem identity_continuity_counterexample :
    ((runTicks [cxTick1]).students.map StudentData.id = ["student-1"]) ∧
    ((runTicks [cxTick1, cxTick2]).students.map StudentData.id = ["student-1"]) ∧
    ((runTicks [cxTick1]).students.map StudentData.boundingBox =
      (runTicks [cxTick1, cxTick2]).students.map StudentData.boundingBox) ∧
    ((runTicks [cxTick1]).students.map (fun s => s.history.length) = [0]) ∧
    ((runTicks [cxTick1, cxTick2]).students.map (fun s => s.history.length) = [0]) := by
  refine ⟨?_, ?_, ?_, ?_, ?_⟩ <;>
    norm_num [runTicks, stepTick, handleStudentsDetected, detectStudents, numStudents,
      initialState, cxTick1, cxTick2, mkStudent, List.range_succ, appendSamples] <;>
    decide

/-- Claim C1, amended: the detector assigns subject ids positionally,
not by spatial matching — the record at batch index `i` always carries
id `"student-(i+1)"`, so a subject re-detected at the same index keeps
its id regardless of how far its box moved — and every record is created
afresh with an empty history, so the history length stays `0` instead of
increasing by one. -/
theorem identity_by_index (n : ℕ) (draws : ℕ → Draws) (w h : ℚ) (now : ℕ)
    (i : ℕ) (st : StudentData)
    (hst : (detectStudents n draws w h now)[i]? = some st) :
    st.id = "student-" ++ toString (i + 1) ∧ st.history = [] := by
  rcases Nat.lt_or_ge i n with hi | hi
  · rw [detectStudents, List.getElem?_map, List.getElem?_range hi] at hst
    injection hst with h
    subst h
    exact ⟨mkStudent_id .., mkStudent_history ..⟩
  · rw [detectStudents, List.getElem?_map] at hst
    rw [List.getElem?_eq_none (by simpa using hi)] at hst
    simp at hst

/-- Witness for `identity_by_index` at the concrete first tick. -/
theorem identity_by_index_witness :
    ((detectStudents 1 cxDraws 640 480 1000)[0]? =
        some (mkStudent 0 (cxDraws 0) 640 480 1000)) ∧
    (mkStudent 0 (cxDraws 0) 640 480 1000).id = "student-" ++ toString 1 ∧
    (mkStudent 0 (cxDraws 0) 640 480 1000).history = [] :=
  ⟨by simp [detectStudents, List.range_succ],
   identity_by_index 1 cxDraws 640 480 1000 0 _
     (by simp [detectStudents, List.range_succ])⟩

/-! ## Claim C2 -/

/-- Claim C2, counterexample: after `cxTickTwo` the store holds
`student-1` and `student-2`, both last seen at 1000 ms; the next tick
fires at 3000 ms — 2000 ms later — with a one-student batch, and
`student-2` is already absent from the emitted snapshot, although for
any timeout longer than 2000 ms the claim requires it to still be
present with its stale data. -/
theorem timeout_eviction_counterexample :
    ((runTicks [cxTickTwo]).students.map StudentData.id = ["student-1", "student-2"]) ∧
    ((runTicks [cxTickTwo]).students.map StudentData.lastSeen = [1000, 1000]) ∧
    cxTick2.detectTime = 3000 ∧
    ((runTicks [cxTickTwo, cxTick2]).students.map StudentData.id = ["student-1"]) := by
  refine ⟨?_, ?_, rfl, ?_⟩ <;>
    norm_num [runTicks, stepTick, handleStudentsDetected, detectStudents, numStudents,
      initialState, cxTickTwo, cxTick2, mkStudent, List.range_succ, appendSamples] <;>
    decide

/-- Claim C2, amended: each tick replaces the subject store wholesale
with the current detection batch, so a subject with no matching
detection in the current frame is removed from the emitted snapshot
immediately — there is no timeout-based grace period — and a detection
in a later tick receives the id determined by its batch index, which may
or may not coincide with the removed subject's id. -/
theorem store_wholesale_replacement (s : AppState) (d : List StudentData)
    (clock : ℕ → ℕ) (t : TickInput) :
    (handleStudentsDetected s d clock).students = d ∧
    (stepTick s t).students =
      detectStudents (numStudents t.rNum) t.draws t.canvasW t.canvasH t.detectTime :=
  ⟨rfl, rfl⟩

/-! ## Claim C3 -/

/-- Claim C3, counterexample: over the concrete tick `cxTick1` a new
subject is created, and its history has length `0`, not `1` — it is not
seeded with one sample, and with an empty history there is no "most
recent sample" for the `current*` fields to agree with. -/
theorem seeded_history_counterexample :
    ((runTicks [cxTick1]).students.map (fun s => s.history.length) = [0]) ∧
    ¬ ((runTicks [cxTick1]).students.map (fun s => s.history.length) = [1]) := by
  constructor <;>
    norm_num [runTicks, stepTick, handleStudentsDetected, detectStudents, numStudents,
      initialState, cxTick1, mkStudent, List.range_succ, appendSamples]

/-- Claim C3, amended: a newly created subject carries an *empty*
history (length `0`, not `1`); the per-tick samples are instead appended
to the session event log, where the sample recorded for a subject copies
exactly its `currentEmotion`, `engagement`, `confidence` and
`boundingBox` fields. -/
theorem current_fields_in_log (s : AppState) (d : List StudentData)
    (clock : ℕ → ℕ) :
    (handleStudentsDetected s d clock).emotionHistory =
      s.emotionHistory ++ samplesFrom d clock 0 ∧
    (∀ (st : StudentData) (t : ℕ),
      (sampleOf st t).emotion = st.currentEmotion ∧
      (sampleOf st t).engagement = st.engagement ∧
      (sampleOf st t).confidence = st.confidence ∧
      (sampleOf st t).boundingBox = st.boundingBox ∧
      (sampleOf st t).timestamp = t) ∧
    (∀ (n : ℕ) (draws : ℕ → Draws) (w h : ℚ) (now : ℕ) (st : StudentData),
      st ∈ detectStudents n draws w h now → st.history = []) := by
  refine ⟨appendSamples_eq_append d s.emotionHistory clock 0,
          fun st t => ⟨rfl, rfl, rfl, rfl, rfl⟩, ?_⟩
  intro n draws w h now st hst
  rcases mem_detectStudents.mp hst with ⟨i, _, rfl⟩
  exact mkStudent_history ..

/-- Witness for `current_fields_in_log` at the concrete first tick. -/
theorem current_fields_in_log_witness :
    (mkStudent 0 (cxDraws 0) 640 480 1000 ∈ detectStudents 1 cxDraws 640 480 1000) ∧
    (mkStudent 0 (cxDraws 0) 640 480 1000).history = [] :=
  ⟨by simp [detectStudents, List.range_succ],
   (current_fields_in_log initialState [] (fun _ => 0)).2.2 1 cxDraws 640 480 1000 _
     (by simp [detectStudents, List.range_succ])⟩

/-! ## Claim C4 -/

/-- Claim C4: the history of every subject in every reachable store
snapshot is within any retention cap — the code recreates each subject
with an empty history every tick, so the length is always `0` and in
particular never exceeds a configured cap. -/
theorem history_within_retention_cap (ts : List TickInput) (cap : ℕ) :
    ∀ st ∈ (runTicks ts).students, st.history.length ≤ cap := by
  intro st hst
  unfold runTicks at hst
  rcases foldl_students_cases ts initialState with h | ⟨t, _, h⟩
  · rw [h] at hst
    simp [initialState] at hst
  · rw [h] at hst
    rcases mem_detectStudents.mp hst with ⟨i, _, rfl⟩
    rw [mkStudent_history]
    exact Nat.zero_le cap

/-- Witness for `history_within_retention_cap` at the concrete first
tick with cap 3. -/
theorem history_within_retention_cap_witness :
    (mkStudent 0 (cxDraws 0) 640 480 1000 ∈ (runTicks [cxTick1]).students) ∧
    (mkStudent 0 (cxDraws 0) 640 480 1000).history.length ≤ 3 :=
  ⟨by norm_num [runTicks, stepTick, handleStudentsDetected, detectStudents,
      numStudents, initialState, cxTick1, List.range_succ],
   history_within_retention_cap [cxTick1] 3 _
     (by norm_num [runTicks, stepTick, handleStudentsDetected, detectStudents,
       numStudents, initialState, cxTick1, List.range_succ])⟩

/-! ## Claim C5 -/

/-- Claim C5: the session event log is append-only — handling one tick's
batch leaves the previous log a prefix of the new one (no entry removed
or mutated), appends exactly one sample per detected subject carrying
the clock value of its iteration, and, provided the wall clock is
non-decreasing and the existing entries are no later than the current
clock, keeps the log's timestamps non-decreasing in append order. -/
theorem event_log_append_only (s : AppState) (d : List StudentData)
    (clock : ℕ → ℕ)
    (hmono : ∀ i j, i ≤ j → clock i ≤ clock j)
    (hpast : ∀ e ∈ s.emotionHistory, e.timestamp ≤ clock 0) :
    (handleStudentsDetected s d clock).emotionHistory =
      s.emotionHistory ++ samplesFrom d clock 0 ∧
    s.emotionHistory <+: (handleStudentsDetected s d clock).emotionHistory ∧
    (handleStudentsDetected s d clock).emotionHistory.length =
      s.emotionHistory.length + d.length ∧
    (List.Pairwise (fun a b => a.timestamp ≤ b.timestamp) s.emotionHistory →
      List.Pairwise (fun a b => a.timestamp ≤ b.timestamp)
        (handleStudentsDetected s d clock).emotionHistory) := by
  have heq : (handleStudentsDetected s d clock).emotionHistory =
      s.emotionHistory ++ samplesFrom d clock 0 :=
    appendSamples_eq_append d s.emotionHistory clock 0
  refine ⟨heq, ?_, ?_, ?_⟩
  · rw [heq]
    exact List.prefix_append _ _
  · rw [heq]
    simp [samplesFrom_length]
  · intro hp
    rw [heq, List.pairwise_append]
    refine ⟨hp, pairwise_samplesFrom hmono d 0, ?_⟩
    intro a ha b hb
    exact le_trans (hpast a ha) (timestamp_ge_of_mem_samplesFrom hmono d 0 b hb)

/-- Witness for `event_log_append_only`: the concrete one-student batch
grows the empty log to length 1. -/
theorem event_log_append_only_witness :
    (handleStudentsDetected initialState [mkStudent 0 (cxDraws 0) 640 480 1000]
      (fun _ => 1000)).emotionHistory.length = 1 := by
  have h := (event_log_append_only initialState
      [mkStudent 0 (cxDraws 0) 640 480 1000] (fun _ => 1000)
      (fun i j _ => le_refl 1000)
      (by intro e he; simp [initialState] at he)).2.2.1
  simpa [initialState] using h

/-! ## Claim C6 -/

/-- Claim C6: an empty batch on the empty store yields zero subjects, an
all-zero aggregate with trend `insufficientData`, and exactly the
no-data finding, rather than failing — for any window size, any minimum
sample count of at least one, any margin, and any non-negative
distracted-warning threshold. -/
theorem empty_session_zero_metrics (clock : ℕ → ℕ) (wnd minSamples : ℕ)
    (margin thr : ℚ) (hmin : 1 ≤ minSamples) (hthr : 0 ≤ thr) :
    (handleStudentsDetected initialState [] clock).students = [] ∧
    computeAggregate (handleStudentsDetected initialState [] clock).emotionHistory
        wnd minSamples margin =
      { attentiveCount := 0, distractedCount := 0, attentivePct := 0,
        distractedPct := 0, meanConfidence := 0, trend := Trend.insufficientData } ∧
    generateInsights
        (computeAggregate
          (handleStudentsDetected initialState [] clock).emotionHistory
          wnd minSamples margin)
        (handleStudentsDetected initialState [] clock).students.length thr =
      [Finding.noData] := by
  have hlog : (handleStudentsDetected initialState [] clock).emotionHistory =
      ([] : List EmotionData) := rfl
  have h0 : 0 < minSamples := hmin
  have hagg : computeAggregate ([] : List EmotionData) wnd minSamples margin =
      { attentiveCount := 0, distractedCount := 0, attentivePct := 0,
        distractedPct := 0, meanConfidence := 0, trend := Trend.insufficientData } := by
    simp [computeAggregate, h0]
  refine ⟨rfl, ?_, ?_⟩
  · rw [hlog]
    exact hagg
  · rw [hlog, hagg]
    have hthr2 : ¬ (thr < 0) := not_lt.mpr hthr
    simp [generateInsights, hthr2, handleStudentsDetected, appendSamples, initialState]

/-- Witness for `empty_session_zero_metrics` with window 30, minimum
sample count 5, margin 5 and threshold 40. -/
theorem empty_session_zero_metrics_witness :
    generateInsights
        (computeAggregate
          (handleStudentsDetected initialState [] (fun _ => 0)).emotionHistory
          30 5 5)
        (handleStudentsDetected initialState [] (fun _ => 0)).students.length 40 =
      [Finding.noData] :=
  (empty_session_zero_metrics (fun _ => 0) 30 5 5 40 (by norm_num) (by norm_num)).2.2

/-! ## Claim C7 -/

/-- Claim C7: the engagement classifier is total on the fixed emotion
enumeration — every one of the seven labels is mapped to a member of the
fixed engagement enumeration, never an undefined value; being a pure
function of its argument, it is also referentially stable (the same
label always yields the same category). -/
theorem classifier_total_on_enumeration (l : String) (hl : l ∈ emotions) :
    emotionToEngagement l ∈ engagementCategories := by
  simp only [emotions] at hl
  fin_cases hl <;> decide

/-- Witness for `classifier_total_on_enumeration` at the label
`"happy"`. -/
theorem classifier_total_on_enumeration_witness :
    "happy" ∈ emotions ∧ emotionToEngagement "happy" ∈ engagementCategories :=
  ⟨by decide, classifier_total_on_enumeration "happy" (by decide)⟩

/-! ## Claim C8 -/

/-- With a legal `Math.random()` draw the simulated student count is one
of 1, 2 or 3. -/
theorem numStudents_cases {r : ℚ} (h0 : 0 ≤ r) (h1 : r < 1) :
    numStudents r = 1 ∨ numStudents r = 2 ∨ numStudents r = 3 := by
  have hf0 : (0 : ℤ) ≤ ⌊r * 3⌋ := Int.floor_nonneg.mpr (by nlinarith)
  have hf3 : ⌊r * 3⌋ < 3 := by
    apply Int.floor_lt.mpr
    push_cast
    nlinarith
  unfold numStudents
  omega

/-- Claim C8: in every snapshot emitted to readers the subject ids are
pairwise distinct — the store is either empty or the batch of the last
tick, whose ids are `"student-1"` … `"student-n"` for `n ≤ 3`. -/
theorem snapshot_ids_nodup (ts : List TickInput)
    (hr : ∀ t ∈ ts, 0 ≤ t.rNum ∧ t.rNum < 1) :
    ((runTicks ts).students.map StudentData.id).Nodup := by
  unfold runTicks
  rcases foldl_students_cases ts initialState with h | ⟨t, ht, h⟩
  · rw [h]
    simp [initialState]
  · rw [h, ids_detectStudents]
    obtain ⟨h0, h1⟩ := hr t ht
    rcases numStudents_cases h0 h1 with hn | hn | hn <;> rw [hn] <;> decide

/-- Witness for `snapshot_ids_nodup` at the concrete first tick. -/
theorem snapshot_ids_nodup_witness :
    ((runTicks [cxTick1]).students.map StudentData.id).Nodup :=
  snapshot_ids_nodup [cxTick1] (by
    intro t ht
    rw [List.mem_singleton] at ht
    subst ht
    constructor <;> norm_num [cxTick1])

/-! ## Claim C9 -/

/-- Claim C9: every detection emitted by `detectStudents` carries a
confidence in `[0, 1]` — the source computes `0.7 + Math.random() * 0.3`,
which lies in `[0.7, 1)` for any legal draw. -/
theorem detection_confidence_in_unit_interval (n : ℕ) (draws : ℕ → Draws)
    (w h : ℚ) (now : ℕ)
    (hc : ∀ i, 0 ≤ (draws i).rConf ∧ (draws i).rConf < 1) :
    ∀ st ∈ detectStudents n draws w h now,
      0 ≤ st.confidence ∧ st.confidence ≤ 1 := by
  intro st hst
  rcases mem_detectStudents.mp hst with ⟨i, _, rfl⟩
  obtain ⟨h0, h1⟩ := hc i
  rw [mkStudent_confidence]
  constructor <;> nlinarith

/-- Witness for `detection_confidence_in_unit_interval` at the concrete
first tick. -/
theorem detection_confidence_witness :
    (mkStudent 0 (cxDraws 0) 640 480 1000 ∈ detectStudents 1 cxDraws 640 480 1000) ∧
    (0 ≤ (mkStudent 0 (cxDraws 0) 640 480 1000).confidence ∧
      (mkStudent 0 (cxDraws 0) 640 480 1000).confidence ≤ 1) :=
  ⟨by simp [detectStudents, List.range_succ],
   detection_confidence_in_unit_interval 1 cxDraws 640 480 1000
     (by intro i; constructor <;> norm_num [cxDraws]) _
     (by simp [detectStudents, List.range_succ])⟩

/-! ## Claim C10 -/

/-- The weighted-selection loop only ever produces the fallback
`"neutral"` or the label of one of its buckets. -/
theorem selectEmotionAux_mem (r : ℚ) (l : List (String × ℚ)) :
    selectEmotionAux r l ∈ "neutral" :: l.map Prod.fst := by
  induction l generalizing r with
  | nil => simp [selectEmotionAux]
  | cons p rest ih =>
      obtain ⟨e, w⟩ := p
      rw [selectEmotionAux]
      split
      · simp
      · rcases List.mem_cons.mp (ih (r - w)) with h | h
        · rw [h]
          simp
        · exact List.mem_cons_of_mem _ (List.mem_cons_of_mem _ h)

/-- Claim C10: for every random draw in `[0, 1)` the weighted
emotion-selection loop yields a label of the fixed seven-element
enumeration — each bucket's label is in the enumeration and the fallback
`"neutral"` is too — so every emitted detection carries an
in-enumeration label. -/
theorem selected_emotion_in_enumeration (r : ℚ) (h0 : 0 ≤ r) (h1 : r < 1) :
    selectEmotion r ∈ emotions := by
  have h := selectEmotionAux_mem r (emotions.zip weights)
  rw [List.map_fst_zip emotions weights (by decide)] at h
  rcases List.mem_cons.mp h with h | h
  · show selectEmotionAux r (emotions.zip weights) ∈ emotions
    rw [h]
    decide
  · exact h

/-- Witness for `selected_emotion_in_enumeration` at the draw 0. -/
theorem selected_emotion_in_enumeration_witness :
    selectEmotion 0 ∈ emotions :=
  selected_emotion_in_enumeration 0 (by norm_num) (by norm_num)
